import Mathlib

/-!
Verification development for the KheloMore venue scraper (src/app.py).

The Python source drives a browser through playwright; the development below
is a shallow embedding of its control flow.  Browser interactions are
parameterised by explicit environment values describing how the page behaves
(query results, element text, click/navigation outcomes), and each Python
loop is translated into a structurally recursive Lean function over those
environments.  Exceptions thrown by a browser call are represented by the
corresponding environment value (an Option being none, or an explicit
failure outcome), matching the try/except structure of the source.
-/

/-- The UNAVAILABLE sentinel used throughout src/app.py. -/
def NA : String := "N/A"

/-- Drop leading whitespace characters, as the left half of Python str.strip. -/
def wsDrop (l : List Char) : List Char := l.dropWhile Char.isWhitespace

/-- Python str.strip over the character list of a string: drop leading
whitespace, then drop trailing whitespace (by reversing). -/
def trimList (l : List Char) : List Char := ((wsDrop ((wsDrop l).reverse)).reverse)

/-- Embedding of Python str.strip used at src/app.py:241. -/
def stripChars (s : String) : String := String.mk (trimList s.data)

/-- VenueScraper.extract_text_content (src/app.py:235-244).  The input models
element.text_content(): none stands for a null result or a raised exception
(both give the sentinel), some t for returned text t.  A falsy (empty) text
gives the sentinel, otherwise the text is stripped. -/
def extract_text_content (tc : Option String) : String :=
  match tc with
  | none => NA
  | some t => if t = "" then NA else stripChars t

/-- The acceptance test applied to extracted text in extract_venue_data
(src/app.py:311): text and text != "N/A" and len(text.strip()) > 0. -/
def goodText (t : String) : Bool :=
  !(t == "") && !(t == NA) && !(stripChars t == "")

/-- A rendered DOM element as the extractor observes it: the result of
text_content() (none for null or a raised query) and its visibility. -/
structure Elem where
  textContent : Option String
  visible : Bool
deriving DecidableEq

/-- The inner element loop of the field-extraction passes
(src/app.py:308-313): take the first visible element whose extracted text
passes goodText. -/
def scanElems : List Elem → Option String
  | [] => none
  | e :: rest =>
    if e.visible then
      if goodText (extract_text_content e.textContent) then
        some (extract_text_content e.textContent)
      else scanElems rest
    else scanElems rest

/-- The selector fallback loop of extract_venue_data (src/app.py:298-320 and
331-353).  Each entry models page.query_selector_all for one selector: none
when the query raised (the except branch continues with the next selector),
some es for the returned element list.  The first selector yielding a good
text wins; otherwise the field stays at the sentinel. -/
def resolveField : List (Option (List Elem)) → String
  | [] => NA
  | q :: rest =>
    match q with
    | none => resolveField rest
    | some es =>
      match scanElems es with
      | some t => t
      | none => resolveField rest

/-- A candidate modal button (src/app.py:362): its text_content() result
(none for null or a raised call, skipped by the inner except) and its
visibility. -/
structure ModalButton where
  textContent : Option String
  visible : Bool
deriving DecidableEq

/-- The page state consulted by the modal sub-protocol for one modal type:
the button list from the query at src/app.py:362, the query_selector result
for the modal content region (none when no dialog element is found, some tc
for an element whose text_content() gives tc), and the close-button list
from src/app.py:380. -/
structure ModalPage where
  buttons : List ModalButton
  dialog : Option (Option String)
  closeButtons : List ModalButton

/-- Observable modal interactions: the open click (src/app.py:369), the
content read (src/app.py:375) and the close click (src/app.py:383). -/
inductive ModalEvent where
  | openClick
  | contentRead
  | closeClick
deriving DecidableEq

/-- Boolean test that the first list occurs at the head of the second. -/
def charsPrefixOf : List Char → List Char → Bool
  | [], _ => true
  | _ :: _, [] => false
  | a :: as, b :: bs => a == b && charsPrefixOf as bs

/-- Boolean substring containment over character lists, the embedding of the
Python expression needle in haystack on lowered strings. -/
def charsContain (needle : List Char) : List Char → Bool
  | [] => charsPrefixOf needle []
  | b :: bs => charsPrefixOf needle (b :: bs) || charsContain needle bs

/-- Python modal_type.replace of underscores by spaces, over characters (the
pattern in the source is the single underscore character). -/
def underscoreToSpace (l : List Char) : List Char :=
  l.map fun c => if c = '_' then ' ' else c

/-- Python str.lower over characters. -/
def lowerChars (l : List Char) : List Char := l.map Char.toLower

/-- The button-matching test of the modal sub-protocol (src/app.py:366-367):
button_text and modal_type.replace with spaces, lowercased, contained in the
lowered button text. -/
def matchesModal (modalType : String) (bt : Option String) : Bool :=
  match bt with
  | none => false
  | some t =>
    if t = "" then false
    else charsContain (lowerChars (underscoreToSpace modalType.data)) (lowerChars t.data)

/-- The close-button loop (src/app.py:380-384): click the first visible
close control, produce no event when none is visible. -/
def closeScan : List ModalButton → List ModalEvent
  | [] => []
  | b :: rest => if b.visible then [ModalEvent.closeClick] else closeScan rest

/-- What happens after the open click (src/app.py:369-384): when a dialog
element is found its content is read (accepted when non-empty and not the
sentinel), and a close control is clicked; when no dialog element is found
the value stays at the sentinel and no further interaction happens. -/
def dialogResult (dialog : Option (Option String)) (closeButtons : List ModalButton) :
    String × List ModalEvent :=
  match dialog with
  | none => (NA, [ModalEvent.openClick])
  | some tc =>
    (if !(extract_text_content tc == "") && !(extract_text_content tc == NA) then
       extract_text_content tc
     else NA,
     [ModalEvent.openClick, ModalEvent.contentRead] ++ closeScan closeButtons)

/-- The modal button loop of extract_venue_data (src/app.py:360-389) for one
modal type: scan the candidate buttons in order; on the first visible button
whose text matches, click it and run the dialog protocol, then stop.
Returns the field value together with the modal interactions performed. -/
def modalButtonScan (mt : String) (dialog : Option (Option String))
    (closeButtons : List ModalButton) : List ModalButton → String × List ModalEvent
  | [] => (NA, [])
  | b :: rest =>
    if matchesModal mt b.textContent && b.visible then dialogResult dialog closeButtons
    else modalButtonScan mt dialog closeButtons rest

/-- Resolution of one modal-gated field against a page (src/app.py:355-392). -/
def extract_modal_field (mt : String) (pg : ModalPage) : String × List ModalEvent :=
  modalButtonScan mt pg.dialog pg.closeButtons pg.buttons

/-- A venue record, the dictionary built by extract_venue_data, as an
association list in insertion order. -/
abbrev VRec := List (String × String)

/-- A detail page as the extractor observes it: per field name the ordered
query results of its selector fallback list, per modal type the modal page
state, and page.url. -/
structure DetailPage where
  fieldQueries : String → List (Option (List Elem))
  modal : String → ModalPage
  url : String

/-- Keys of the selectors dictionary (src/app.py:255-295), in order. -/
def basicFields : List String :=
  ["name", "price", "timing", "address", "rating", "raters"]

/-- Keys of the additional_info dictionary (src/app.py:323-329), in order. -/
def additionalFields : List String :=
  ["about_venue", "available_sports", "highlights", "amenities", "offer"]

/-- The modal_info list (src/app.py:356). -/
def modalFields : List String := ["facilities", "venue_rules"]

/-- VenueScraper.extract_venue_data (src/app.py:246-400): resolve the six
basic fields, the five additional fields, the two modal-gated fields, then
record page.url under the key url.  Python dict insertion order gives this
association-list order. -/
def extract_venue_data (pg : DetailPage) : VRec :=
  (basicFields.map fun k => (k, resolveField (pg.fieldQueries k)))
    ++ (additionalFields.map fun k => (k, resolveField (pg.fieldQueries k)))
    ++ (modalFields.map fun k => (k, (extract_modal_field k (pg.modal k)).1))
    ++ [("url", pg.url)]

/-- The two assignments performed by the caller right after extraction
(src/app.py:479-480): venue_info of city and of scraped_at.  Both keys are
fresh, so the dict insertion appends them. -/
def inject_orchestrator_fields (rec : VRec) (city ts : String) : VRec :=
  rec ++ [("city", city), ("scraped_at", ts)]

/-- The keys extract_venue_data itself produces, in insertion order. -/
def extractKeys : List String :=
  ["name", "price", "timing", "address", "rating", "raters", "about_venue",
   "available_sports", "highlights", "amenities", "offer", "facilities",
   "venue_rules", "url"]

/-- The keys of a record as appended to city_venues, after the orchestrator
injections. -/
def recordKeys : List String := extractKeys ++ ["city", "scraped_at"]

/-- Modelled from the spec: the fixed schema named in the specification,
which lists source_url where the code writes the key url. -/
def specSchemaKeys : List String :=
  ["name", "price", "timing", "address", "rating", "raters", "about_venue",
   "available_sports", "highlights", "amenities", "offer", "facilities",
   "venue_rules", "city", "scraped_at", "source_url"]

/-- Modelled from the spec: collapse an internal run of whitespace to a
single space (the normalization the specification describes, which the code
does not perform). -/
def collapseWs : List Char → List Char
  | [] => []
  | c :: rest =>
    if c.isWhitespace then
      match collapseWs rest with
      | [] => []
      | ' ' :: out => ' ' :: out
      | out => ' ' :: out
    else c :: collapseWs rest

/-- Modelled from the spec: whitespace normalization, collapse internal runs
to single spaces and trim. -/
def specNormalize (s : String) : String := String.mk (trimList (collapseWs s.data))

/-- The keyword list of the generic venue detection (src/app.py:98-99).  The
first entry is the literal three-character sequence present in the source
file (a mojibake rendering of the rupee sign). -/
def venueKeywords : List String :=
  ["‚Çπ", "rating", "open", "closed", "sports", "court", "field"]

/-- The generic fallback of VenueScraper.get_venue_elements
(src/app.py:89-111): keep the divs whose text content contains one of the
keywords (a null text or a raised text_content() call skips the div), then
return the first 50. -/
def get_venue_elements_generic (divs : List Elem) : List Elem :=
  (divs.filter fun d =>
    match d.textContent with
    | none => false
    | some t =>
      !(t == "") && venueKeywords.any fun kw => charsContain kw.data (lowerChars t.data)).take 50

/-- What one iteration of the load_all_venues loop observes: exc when an
exception escapes a sub-step to the except branch at src/app.py:223, and
otherwise the current venue count, whether a load-more click succeeded, and
the count seen again after a successful click. -/
inductive LoadIterOutcome where
  | exc
  | normal (count : Nat) (clicked : Bool) (newCount : Nat)

/-- The mutable state of the load_all_venues loop (src/app.py:117-120). -/
structure LoadState where
  attempts : Nat
  consec : Nat
  last : Nat
deriving DecidableEq

/-- One iteration of the load_all_venues while body (src/app.py:122-227).
Both the normal path and the except path increment attempts exactly once. -/
def loadStep (st : LoadState) (o : LoadIterOutcome) : LoadState :=
  match o with
  | .exc => { st with consec := st.consec + 1, attempts := st.attempts + 1 }
  | .normal c clicked nc =>
    let consec1 := if c = st.last then st.consec + 1 else 0
    let last1 := if c = st.last then st.last else c
    let consec2 :=
      if clicked then (if nc > c then 0 else consec1 + 1) else consec1 + 1
    { attempts := st.attempts + 1, consec := consec2, last := last1 }

/-- The load_all_venues cap (src/app.py:117). -/
def max_attempts : Nat := 30

/-- The load_all_venues while loop (src/app.py:122): loop while
attempts < max_attempts and consecutive_failures < 3.  Since every iteration
increments attempts by exactly one, the condition attempts < max_attempts is
realised by running on the fuel max_attempts - attempts. -/
def load_all_venues_loop (beh : Nat → LoadIterOutcome) : Nat → LoadState → LoadState
  | 0, st => st
  | fuel + 1, st =>
    if st.consec < 3 then load_all_venues_loop beh fuel (loadStep st (beh st.attempts))
    else st

/-- VenueScraper.load_all_venues (src/app.py:113-233) as a state transformer:
run the loop from the initial counters.  The behaviour function gives what
iteration number k observes. -/
def load_all_venues (beh : Nat → LoadIterOutcome) : LoadState :=
  load_all_venues_loop beh max_attempts { attempts := 0, consec := 0, last := 0 }

/-- A page that produces new content on every iteration, with every
load-more click succeeding: counts grow without bound. -/
def behEndlessGrowth : Nat → LoadIterOutcome :=
  fun k => LoadIterOutcome.normal (k + 1) true (k + 2)

/-- A page on which no load-more control ever appears and the venue count
never changes. -/
def behNoLoadMore : Nat → LoadIterOutcome :=
  fun _ => LoadIterOutcome.normal 0 false 0

/-- The outcome of one attempt of the per-venue try block
(src/app.py:459-493): ok when the whole block runs (extracted record r,
appended, back-navigation and re-query succeed); failBefore when an
exception occurs before the append at src/app.py:482 (scroll, click, load
wait, or extract_venue_data raising at its unguarded wait); failAfter when
the record r was appended and then go_back or the following load wait
raised. -/
inductive AttemptOutcome where
  | ok (r : VRec)
  | failBefore
  | failAfter (r : VRec)
deriving DecidableEq

/-- Environment of the per-venue loop: the outcome of attempt k on outer
item index i, the element list returned by the j-th re-query of
get_venue_elements inside the loop, and whether the recovery block of the
except branch (src/app.py:500-506) runs to completion for item i after
failed attempt k (false when its own go_back or wait raises, leaving the
variable unchanged). -/
structure ItemEnv where
  attempt : Nat → Nat → AttemptOutcome
  reEnum : Nat → List Nat
  recoverOk : Nat → Nat → Bool

/-- The mutable state of the per-venue loop in scrape_city_venues:
city_venues, processed_count, the current value of the venue_elements
variable, how many re-queries have been consumed, and the trace of
(item index, element handle) pairs each attempt operated on.  Element
handles are abstracted as natural numbers. -/
structure LoopState where
  records : List VRec
  processed : Nat
  cur : List Nat
  reIdx : Nat
  trace : List (Nat × Nat)
deriving DecidableEq

/-- The assignment venue_elements = get_venue_elements(page)
(src/app.py:491 and 504): rebind the variable to the next fresh enumeration.
Crucially this only rebinds the local variable; the iterator of the
enclosing for loop was created from the original list and is unaffected. -/
def rebind (env : ItemEnv) (st : LoopState) : LoopState :=
  { st with cur := env.reEnum st.reIdx, reIdx := st.reIdx + 1 }

/-- The recovery block of the except branch (src/app.py:499-506): performed
only while retry_count < max_retries after the increment; it re-binds
venue_elements when it completes. -/
def recoverStep (env : ItemEnv) (i retry : Nat) (st : LoopState) : LoopState :=
  if retry + 1 < 3 then (if env.recoverOk i retry then rebind env st else st) else st

/-- The while retry_count < max_retries loop of scrape_city_venues
(src/app.py:458-508), run with fuel 3 - retry_count.  The handle h is the
loop variable venue taken from the original enumeration; every attempt
clicks it.  On ok the record is appended and the variable rebound; on
failBefore nothing was appended; on failAfter the record was appended
before the exception. -/
def attemptLoop (env : ItemEnv) (i h : Nat) : Nat → Nat → LoopState → LoopState
  | 0, _, st => st
  | fuel + 1, retry, st =>
    match env.attempt i retry with
    | AttemptOutcome.ok r =>
      rebind env { st with trace := st.trace ++ [(i, h)], records := st.records ++ [r] }
    | AttemptOutcome.failBefore =>
      attemptLoop env i h fuel (retry + 1)
        (recoverStep env i retry { st with trace := st.trace ++ [(i, h)] })
    | AttemptOutcome.failAfter r =>
      attemptLoop env i h fuel (retry + 1)
        (recoverStep env i retry
          { st with trace := st.trace ++ [(i, h)], records := st.records ++ [r] })

/-- The increment processed_count += 1 at src/app.py:510. -/
def bumpProcessed (st : LoopState) : LoopState :=
  { st with processed := st.processed + 1 }

/-- The for i, venue in enumerate(venue_elements) loop (src/app.py:452-510).
The Python iterator ranges over the original list object captured at loop
entry, so the items come from the list this function recurses on, not from
the rebound cur field.  The loop breaks once processed_count reaches
min(total_venues, 50); otherwise it runs the retry loop and increments
processed_count. -/
def itemLoop (env : ItemEnv) (total : Nat) : List Nat → Nat → LoopState → LoopState
  | [], _, st => st
  | h :: rest, i, st =>
    if st.processed ≥ min total 50 then st
    else itemLoop env total rest (i + 1) (bumpProcessed (attemptLoop env i h 3 0 st))

/-- Environment of one city run: whether the k-th hypothetical page.goto
attempt raises (the code performs only attempt 0), the count returned by
load_all_venues, the enumeration obtained at src/app.py:446, and the item
loop environment.  Browser launch and page setup are modelled as
succeeding; their failure would take the same caught-exception path as a
navigation failure. -/
structure CityEnv where
  gotoFails : Nat → Bool
  total : Nat
  initElems : List Nat
  items : ItemEnv

/-- What one call of scrape_city_venues produces: the returned city_venues
list, whether the city was appended to self.failed_cities by the except
branch at src/app.py:515-517, and the final item-loop state (for the
interaction trace). -/
structure CityResult where
  records : List VRec
  failed : Bool
  finalState : LoopState
deriving DecidableEq

/-- VenueScraper.scrape_city_venues (src/app.py:402-523).  page.goto is
executed once (src/app.py:435); if that single attempt raises, control
jumps to the except branch: the city is marked failed and the empty
city_venues list is returned.  If load_all_venues reports zero venues the
empty list is returned without marking the city failed.  Otherwise the
per-venue loop runs; all its exceptions are handled inside it. -/
def scrape_city_venues (ce : CityEnv) : CityResult :=
  let st0 : LoopState :=
    { records := [], processed := 0, cur := ce.initElems, reIdx := 0, trace := [] }
  if ce.gotoFails 0 then { records := [], failed := true, finalState := st0 }
  else if ce.total = 0 then { records := [], failed := false, finalState := st0 }
  else
    let stF := itemLoop ce.items ce.total ce.initElems 0 st0
    { records := stF.records, failed := false, finalState := stF }

/-- Modelled from the spec: the navigation protocol the specification
describes, retry navigation up to 3 times; it succeeds when any of the
first three attempts succeeds. -/
def spec_navigation_succeeds (gotoFails : Nat → Bool) : Bool :=
  !(gotoFails 0) || !(gotoFails 1) || !(gotoFails 2)

/-- How one call of scrape_city_venues ends, as seen by scrape_all_cities:
ok when it returns normally with no internal exception; caught when an
exception was caught at src/app.py:515 (the city was appended to
failed_cities inside the call and the records collected so far are still
returned); raised when scrape_city_venues itself raises (for instance the
playwright context at src/app.py:407 failing), reaching the except branch
of scrape_all_cities. -/
inductive CityBehavior where
  | ok (recs : List VRec)
  | caught (caughtRecs : List VRec)
  | raised

/-- True exactly when the call raised out of scrape_city_venues. -/
def CityBehavior.isRaised : CityBehavior → Bool
  | .raised => true
  | _ => false

/-- True exactly when an exception was caught inside scrape_city_venues. -/
def CityBehavior.isCaught : CityBehavior → Bool
  | .caught _ => true
  | _ => false

/-- One snapshot handed to persistence by save_progress
(src/app.py:552-574): the full cumulative record list, the completed-city
list and the failed-city list at the moment of the call. -/
structure Snapshot where
  venues : List VRec
  scraped : List String
  failed : List String
deriving DecidableEq

/-- The instance state of VenueScraper (src/app.py:29-31) plus the sequence
of snapshots handed to persistence. -/
structure ScrapeState where
  venues_data : List VRec
  scraped_cities : List String
  failed_cities : List String
  saves : List Snapshot
deriving DecidableEq

/-- VenueScraper.save_progress (src/app.py:552-574): hand the current
cumulative records and progress to persistence.  The file writes themselves
are the excluded persistence collaborator and are modelled as succeeding. -/
def save_progress (st : ScrapeState) : ScrapeState :=
  { st with
      saves := st.saves ++
        [{ venues := st.venues_data, scraped := st.scraped_cities,
           failed := st.failed_cities }] }

/-- One iteration of the scrape_all_cities for loop (src/app.py:529-544).
ok: extend venues_data, append the city to scraped_cities, save.  caught:
the callee already appended the city to failed_cities and returned its
records collected before the exception, after which the caller still
extends, appends the city to
scraped_cities and saves.  raised: the except branch appends the city to
failed_cities and continues without saving. -/
def processCity (st : ScrapeState) (city : String) (b : CityBehavior) : ScrapeState :=
  match b with
  | .ok recs =>
    save_progress
      { st with venues_data := st.venues_data ++ recs,
                scraped_cities := st.scraped_cities ++ [city] }
  | .caught recs =>
    save_progress
      { st with failed_cities := st.failed_cities ++ [city],
                venues_data := st.venues_data ++ recs,
                scraped_cities := st.scraped_cities ++ [city] }
  | .raised => { st with failed_cities := st.failed_cities ++ [city] }

/-- VenueScraper.scrape_all_cities (src/app.py:525-550) over a city list,
with the behaviour of each city given by the environment beh. -/
def scrape_all_cities (beh : String → CityBehavior) :
    List String → ScrapeState → ScrapeState
  | [], st => st
  | c :: rest, st => scrape_all_cities beh rest (processCity st c (beh c))

/-- The fresh VenueScraper state (src/app.py:28-31). -/
def emptyScrapeState : ScrapeState :=
  { venues_data := [], scraped_cities := [], failed_cities := [], saves := [] }

/-- The CITIES constant (src/app.py:16-25). -/
def CITIES : List String :=
  ["bengaluru", "pune", "mumbai", "surat", "hyderabad", "delhi-&-ncr",
   "ahmedabad", "nagpur", "kolkata", "navi-mumbai", "gurugram", "noida",
   "delhi", "faridabad", "secunderabad", "ghaziabad", "kochi", "jabalpur",
   "jaipur", "chitilappilly", "thrissur", "thiruvananthapuram", "nashik",
   "chandigarh", "kolhapur", "warangal", "margao", "vadodara", "kannur",
   "kollam", "kottayam", "chennai", "nellore", "wayanad", "indore",
   "kozhikode", "malappuram", "palakkad", "coimbatore", "jalgaon",
   "sangli", "nagaur"]

/-- A city behaviour where every city succeeds with no records. -/
def behOkEmpty : String → CityBehavior := fun _ => CityBehavior.ok []

/-- A city behaviour where every city fails with an exception caught inside
scrape_city_venues, salvaging nothing. -/
def behCaughtEmpty : String → CityBehavior := fun _ => CityBehavior.caught []

/-- A city behaviour where scrape_city_venues raises for every city. -/
def behRaised : String → CityBehavior := fun _ => CityBehavior.raised

/-- A city environment whose first navigation attempt fails while a second
attempt would succeed. -/
def exNavRetry : CityEnv :=
  { gotoFails := fun k => k == 0,
    total := 5,
    initElems := [0, 1, 2, 3, 4],
    items :=
      { attempt := fun _ _ => AttemptOutcome.ok [("name", "v")],
        reEnum := fun _ => [0, 1, 2, 3, 4],
        recoverOk := fun _ _ => true } }

/-- A two-item city whose fresh re-enumerations return different handles
(7 and 8) than the original listing (0 and 1): the detail navigation has
invalidated the original items. -/
def exStale : CityEnv :=
  { gotoFails := fun _ => false,
    total := 2,
    initElems := [0, 1],
    items :=
      { attempt := fun _ _ => AttemptOutcome.ok [("name", "v")],
        reEnum := fun _ => [7, 8],
        recoverOk := fun _ _ => true } }

/-- A two-item city whose fresh re-enumerations are empty: after the first
back-navigation the freshly resolved count is zero. -/
def exStaleEmpty : CityEnv :=
  { gotoFails := fun _ => false,
    total := 2,
    initElems := [0, 1],
    items :=
      { attempt := fun _ _ => AttemptOutcome.ok [("name", "v")],
        reEnum := fun _ => [],
        recoverOk := fun _ _ => true } }

/-- A city with 51 listed items, every extraction succeeding first try. -/
def exFiftyOne : CityEnv :=
  { gotoFails := fun _ => false,
    total := 51,
    initElems := List.range 51,
    items :=
      { attempt := fun _ _ => AttemptOutcome.ok [],
        reEnum := fun _ => List.range 51,
        recoverOk := fun _ _ => true } }

/-- A two-item city, every extraction succeeding first try. -/
def exTwo : CityEnv :=
  { gotoFails := fun _ => false,
    total := 2,
    initElems := [0, 1],
    items :=
      { attempt := fun _ _ => AttemptOutcome.ok [("n", "r")],
        reEnum := fun _ => [0, 1],
        recoverOk := fun _ _ => true } }

/-- The record extracted in exTwo. -/
def recNR : Nat → VRec := fun _ => [("n", "r")]

/-- A 17-item city where every attempt appends its record and then fails in
the back-navigation (go_back or the following load wait raising after the
append at src/app.py:482). -/
def exDupAppend : CityEnv :=
  { gotoFails := fun _ => false,
    total := 17,
    initElems := List.range 17,
    items :=
      { attempt := fun _ _ => AttemptOutcome.failAfter [],
        reEnum := fun _ => [],
        recoverOk := fun _ _ => true } }

/-- A ten-item city, every extraction succeeding first try, for the bound
witness. -/
def exTen : CityEnv :=
  { gotoFails := fun _ => false,
    total := 10,
    initElems := List.range 10,
    items :=
      { attempt := fun _ _ => AttemptOutcome.ok [],
        reEnum := fun _ => List.range 10,
        recoverOk := fun _ _ => true } }

/-- A detail page on which every selector query returns no elements and
every modal button list is empty. -/
def exPageBare : DetailPage :=
  { fieldQueries := fun _ => [],
    modal := fun _ => { buttons := [], dialog := none, closeButtons := [] },
    url := "https://www.khelomore.com/sports-venues/pune/v/1" }

/-- A detail page whose name selector matches a visible element whose text
has internal double spaces and a newline. -/
def exPageRaw : DetailPage :=
  { fieldQueries := fun k =>
      if k == "name" then [some [{ textContent := some "Indoor  Arena\nMumbai", visible := true }]]
      else [],
    modal := fun _ => { buttons := [], dialog := none, closeButtons := [] },
    url := "https://www.khelomore.com/sports-venues/mumbai/v/2" }

/-- A detail page whose name selector yields plain text, for the trimming
witness. -/
def exPagePlain : DetailPage :=
  { fieldQueries := fun k =>
      if k == "name" then [some [{ textContent := some "Indoor Arena", visible := true }]]
      else [],
    modal := fun _ => { buttons := [], dialog := none, closeButtons := [] },
    url := "https://www.khelomore.com/sports-venues/mumbai/v/3" }

/-- A modal page with one non-matching visible button and one matching but
invisible button: no open control for facilities can be found. -/
def exModalNoControl : ModalPage :=
  { buttons :=
      [{ textContent := some "About Venue", visible := true },
       { textContent := some "Facilities", visible := false }],
    dialog := some (some "modal text"),
    closeButtons := [{ textContent := some "x", visible := true }] }

/-! Supporting lemmas about the stripping of text. -/

theorem trimList_eq (l : List Char) :
    trimList l = List.rdropWhile Char.isWhitespace (wsDrop l) := rfl

theorem dropWhile_dropWhile (p : Char → Bool) (l : List Char) :
    List.dropWhile p (List.dropWhile p l) = List.dropWhile p l := by
  induction l with
  | nil => rfl
  | cons a t ih =>
    by_cases h : p a
    · simp [List.dropWhile_cons, h, ih]
    · simp [List.dropWhile_cons, h]

theorem rdropWhile_rdropWhile (p : Char → Bool) (l : List Char) :
    List.rdropWhile p (List.rdropWhile p l) = List.rdropWhile p l := by
  simp [List.rdropWhile, dropWhile_dropWhile]

theorem trimList_head (l : List Char) :
    List.dropWhile Char.isWhitespace (trimList l) = trimList l := by
  rcases hX : trimList l with _ | ⟨a, t⟩
  · rfl
  · have hpre : trimList l <+: wsDrop l := by
      rw [trimList_eq]; exact List.rdropWhile_prefix _ _
    rw [hX] at hpre
    obtain ⟨r, hr⟩ := hpre
    have hc : List.dropWhile Char.isWhitespace l = a :: (t ++ r) := by
      simp only [wsDrop] at hr
      rw [← hr]; simp
    have hne : List.dropWhile Char.isWhitespace l ≠ [] := by
      rw [hc]; simp
    have hhead := List.head_dropWhile_not Char.isWhitespace l hne
    have hd : (List.dropWhile Char.isWhitespace l).head hne = a := by
      simp [hc]
    rw [hd] at hhead
    simp [List.dropWhile_cons, hhead]

theorem trimList_idem (l : List Char) : trimList (trimList l) = trimList l := by
  have h1 : trimList (trimList l) =
      List.rdropWhile Char.isWhitespace (wsDrop (trimList l)) := trimList_eq _
  rw [h1]
  have h2 : wsDrop (trimList l) = trimList l := trimList_head l
  rw [h2, trimList_eq, rdropWhile_rdropWhile, ← trimList_eq]

theorem stripChars_idem (s : String) : stripChars (stripChars s) = stripChars s := by
  simp [stripChars, trimList_idem]

theorem extract_text_content_stripped (tc : Option String) :
    extract_text_content tc = NA ∨
      stripChars (extract_text_content tc) = extract_text_content tc := by
  rcases tc with _ | t
  · exact Or.inl rfl
  · by_cases h : t = ""
    · exact Or.inl (by simp [extract_text_content, h])
    · refine Or.inr ?_
      simp only [extract_text_content, if_neg h]
      exact stripChars_idem t

theorem goodText_ne (t : String) (h : goodText t = true) : t ≠ "" ∧ t ≠ NA := by
  simp only [goodText, Bool.and_eq_true, Bool.not_eq_eq_eq_not, Bool.not_true,
    beq_eq_false_iff_ne, ne_eq] at h
  exact ⟨h.1.1, h.1.2⟩

/-! Supporting lemmas about field resolution. -/

theorem scanElems_good (t : String) :
    ∀ es : List Elem, scanElems es = some t → goodText t = true := by
  intro es
  induction es with
  | nil => intro h; cases h
  | cons e rest ih =>
    intro h
    simp only [scanElems] at h
    by_cases hv : e.visible
    · rw [if_pos hv] at h
      by_cases hg : goodText (extract_text_content e.textContent) = true
      · rw [if_pos hg] at h
        cases h
        exact hg
      · rw [if_neg hg] at h
        exact ih h
    · rw [if_neg hv] at h
      exact ih h

theorem scanElems_from_text (t : String) :
    ∀ es : List Elem, scanElems es = some t →
      ∃ tc : Option String, t = extract_text_content tc := by
  intro es
  induction es with
  | nil => intro h; cases h
  | cons e rest ih =>
    intro h
    simp only [scanElems] at h
    by_cases hv : e.visible
    · rw [if_pos hv] at h
      by_cases hg : goodText (extract_text_content e.textContent) = true
      · rw [if_pos hg] at h
        cases h
        exact ⟨e.textContent, rfl⟩
      · rw [if_neg hg] at h
        exact ih h
    · rw [if_neg hv] at h
      exact ih h

theorem scanElems_stripped (t : String) (es : List Elem) (h : scanElems es = some t) :
    stripChars t = t := by
  obtain ⟨tc, htc⟩ := scanElems_from_text t es h
  have hg := scanElems_good t es h
  rcases extract_text_content_stripped tc with hna | hst
  · exact absurd (htc.trans hna) (goodText_ne t hg).2
  · rw [htc]; exact hst

theorem resolveField_cases (qs : List (Option (List Elem))) :
    resolveField qs = NA ∨
      (resolveField qs ≠ "" ∧ stripChars (resolveField qs) = resolveField qs) := by
  induction qs with
  | nil => exact Or.inl rfl
  | cons q rest ih =>
    rcases q with _ | es
    · simpa [resolveField] using ih
    · simp only [resolveField]
      rcases hs : scanElems es with _ | t
      · exact ih
      · refine Or.inr ⟨(goodText_ne t (scanElems_good t es hs)).1, scanElems_stripped t es hs⟩

/-! Supporting lemmas about the modal sub-protocol. -/

theorem modalButtonScan_value (mt : String) (d : Option (Option String))
    (cb : List ModalButton) :
    ∀ bs : List ModalButton,
      (modalButtonScan mt d cb bs).1 = NA ∨
        ((modalButtonScan mt d cb bs).1 ≠ "" ∧
          stripChars (modalButtonScan mt d cb bs).1 = (modalButtonScan mt d cb bs).1) := by
  intro bs
  induction bs with
  | nil => exact Or.inl rfl
  | cons b rest ih =>
    simp only [modalButtonScan]
    by_cases hm : (matchesModal mt b.textContent && b.visible) = true
    · rw [if_pos hm]
      rcases d with _ | tc
      · exact Or.inl rfl
      · simp only [dialogResult]
        by_cases hct : (!(extract_text_content tc == "") && !(extract_text_content tc == NA)) = true
        · rw [if_pos hct]
          simp only [Bool.and_eq_true, Bool.not_eq_eq_eq_not, Bool.not_true,
            beq_eq_false_iff_ne, ne_eq] at hct
          refine Or.inr ⟨hct.1, ?_⟩
          rcases extract_text_content_stripped tc with hna | hst
          · exact absurd hna hct.2
          · exact hst
        · rw [if_neg hct]
          exact Or.inl rfl
    · rw [if_neg hm]
      exact ih

theorem modalButtonScan_no_control (mt : String) (d : Option (Option String))
    (cb : List ModalButton) :
    ∀ bs : List ModalButton,
      (∀ b ∈ bs, (matchesModal mt b.textContent && b.visible) = false) →
        modalButtonScan mt d cb bs = (NA, []) := by
  intro bs
  induction bs with
  | nil => intro _; rfl
  | cons b rest ih =>
    intro h
    have hb := h b (List.mem_cons_self b rest)
    simp only [modalButtonScan, hb, Bool.false_eq_true, if_false]
    exact ih fun x hx => h x (List.mem_cons_of_mem b hx)

/-- C9: for a modal-gated field (facilities or venue_rules), when no visible
button whose text matches the modal name exists on the detail page, the
field resolves to the UNAVAILABLE sentinel and no modal interaction at all
(no open click, no content read, no close click) is performed. -/
theorem C9_no_open_control_no_interaction (mt : String) (pg : ModalPage)
    (hmt : mt ∈ modalFields)
    (h : ∀ b ∈ pg.buttons, (matchesModal mt b.textContent && b.visible) = false) :
    extract_modal_field mt pg = (NA, []) :=
  modalButtonScan_no_control mt pg.dialog pg.closeButtons pg.buttons h

/-- C9 witness: on a concrete page whose only facilities-labelled button is
invisible, the facilities field is UNAVAILABLE with an empty interaction
trace. -/
theorem C9_witness : extract_modal_field "facilities" exModalNoControl = (NA, []) :=
  C9_no_open_control_no_interaction "facilities" exModalNoControl (by decide)
    (by decide)

/-! Supporting lemmas about the pagination driver. -/

theorem loadStep_attempts (st : LoadState) (o : LoadIterOutcome) :
    (loadStep st o).attempts = st.attempts + 1 := by
  cases o <;> rfl

theorem load_all_venues_loop_attempts (beh : Nat → LoadIterOutcome) :
    ∀ (fuel : Nat) (st : LoadState),
      (load_all_venues_loop beh fuel st).attempts ≤ st.attempts + fuel := by
  intro fuel
  induction fuel with
  | zero => intro st; simp [load_all_venues_loop]
  | succ n ih =>
    intro st
    simp only [load_all_venues_loop]
    by_cases h : st.consec < 3
    · rw [if_pos h]
      have := ih (loadStep st (beh st.attempts))
      rw [loadStep_attempts] at this
      omega
    · rw [if_neg h]
      omega

/-- C6: the load_all_venues loop performs at most max_attempts iterations
for every possible page behaviour (each iteration increments the attempt
counter exactly once, so the final counter value is the iteration count);
in particular on a page producing new content on every iteration the loop
stops exactly at the attempt budget, and on a page where no load-more
control ever appears it stops within the budget. -/
theorem C6_budget_termination :
    (∀ beh : Nat → LoadIterOutcome, (load_all_venues beh).attempts ≤ max_attempts)
    ∧ (load_all_venues behEndlessGrowth).attempts = max_attempts
    ∧ (load_all_venues behNoLoadMore).attempts ≤ max_attempts := by
  refine ⟨fun beh => ?_, by decide, by decide⟩
  have := load_all_venues_loop_attempts beh max_attempts
    { attempts := 0, consec := 0, last := 0 }
  simpa [load_all_venues] using this

/-! Supporting lemmas about scrape_all_cities. -/

theorem processCity_scraped (st : ScrapeState) (c : String) (b : CityBehavior) :
    (processCity st c b).scraped_cities =
      st.scraped_cities ++ (if b.isRaised then [] else [c]) := by
  cases b <;> simp [processCity, save_progress, CityBehavior.isRaised]

theorem processCity_failed (st : ScrapeState) (c : String) (b : CityBehavior) :
    (processCity st c b).failed_cities =
      st.failed_cities ++ (if b.isRaised || b.isCaught then [c] else []) := by
  cases b <;> simp [processCity, save_progress, CityBehavior.isRaised, CityBehavior.isCaught]

theorem processCity_saves_length (st : ScrapeState) (c : String) (b : CityBehavior) :
    (processCity st c b).saves.length =
      st.saves.length + (if b.isRaised then 0 else 1) := by
  cases b <;> simp [processCity, save_progress, CityBehavior.isRaised]

theorem scrape_all_cities_scraped (beh : String → CityBehavior) :
    ∀ (cs : List String) (st : ScrapeState),
      (scrape_all_cities beh cs st).scraped_cities =
        st.scraped_cities ++ cs.filter fun c => !(beh c).isRaised := by
  intro cs
  induction cs with
  | nil => intro st; simp [scrape_all_cities]
  | cons c rest ih =>
    intro st
    simp only [scrape_all_cities]
    rw [ih, processCity_scraped]
    by_cases h : (beh c).isRaised
    · simp [h, List.filter_cons]
    · simp only [Bool.not_eq_true] at h
      simp [h, List.filter_cons]

theorem scrape_all_cities_failed (beh : String → CityBehavior) :
    ∀ (cs : List String) (st : ScrapeState),
      (scrape_all_cities beh cs st).failed_cities =
        st.failed_cities ++ cs.filter fun c => (beh c).isRaised || (beh c).isCaught := by
  intro cs
  induction cs with
  | nil => intro st; simp [scrape_all_cities]
  | cons c rest ih =>
    intro st
    simp only [scrape_all_cities]
    rw [ih, processCity_failed]
    by_cases h : ((beh c).isRaised || (beh c).isCaught) = true
    · simp [h, List.filter_cons]
    · simp only [Bool.or_eq_true, not_or, Bool.not_eq_true] at h
      simp [List.filter_cons, h.1, h.2]

theorem scrape_all_cities_saves_length (beh : String → CityBehavior) :
    ∀ (cs : List String) (st : ScrapeState),
      (scrape_all_cities beh cs st).saves.length =
        st.saves.length + (cs.filter fun c => !(beh c).isRaised).length := by
  intro cs
  induction cs with
  | nil => intro st; simp [scrape_all_cities]
  | cons c rest ih =>
    intro st
    simp only [scrape_all_cities]
    rw [ih, processCity_saves_length]
    by_cases h : (beh c).isRaised
    · simp [h, List.filter_cons]
    · simp only [Bool.not_eq_true] at h
      simp [h, List.filter_cons]
      omega

/-- C1 counterexample: for the city list consisting of mumbai alone, with an
exception caught inside scrape_city_venues (for example the single
navigation attempt failing), the finished run records mumbai in the
completed set and in the failed set at the same time, refuting that a
finished city lies in exactly one of the two sets. -/
theorem C1_counterexample :
    "mumbai" ∈ (scrape_all_cities behCaughtEmpty ["mumbai"] emptyScrapeState).scraped_cities
    ∧ "mumbai" ∈ (scrape_all_cities behCaughtEmpty ["mumbai"] emptyScrapeState).failed_cities := by
  decide

/-- C1 amended: once a city finishes, it is in the completed set iff its
scrape_city_venues call returned normally (which includes the internally
caught failures), and it is in the failed set iff its call raised or an
exception was caught inside it.  Hence a succeeding city is in completed
only, a city whose call raises is in failed only, and a city with an
internally caught exception is in both sets; no finished city is in
neither. -/
theorem C1_amended (beh : String → CityBehavior) (cs : List String) (c : String)
    (hc : c ∈ cs) :
    (c ∈ (scrape_all_cities beh cs emptyScrapeState).scraped_cities ↔
      (beh c).isRaised = false)
    ∧ (c ∈ (scrape_all_cities beh cs emptyScrapeState).failed_cities ↔
      ((beh c).isRaised || (beh c).isCaught) = true) := by
  rw [scrape_all_cities_scraped, scrape_all_cities_failed]
  constructor
  · simp [emptyScrapeState, List.mem_filter, hc]
  · simp [emptyScrapeState, List.mem_filter, hc]

/-- C1 witness: for the full CITIES list with every city succeeding, mumbai
ends in the completed set and not in the failed set. -/
theorem C1_witness :
    ("mumbai" ∈ (scrape_all_cities behOkEmpty CITIES emptyScrapeState).scraped_cities ↔
      (behOkEmpty "mumbai").isRaised = false)
    ∧ ("mumbai" ∈ (scrape_all_cities behOkEmpty CITIES emptyScrapeState).failed_cities ↔
      ((behOkEmpty "mumbai").isRaised || (behOkEmpty "mumbai").isCaught) = true) :=
  C1_amended behOkEmpty CITIES "mumbai" (by decide)

/-- C7 counterexample: a run over the single city bengaluru whose
scrape_city_venues call raises finishes with bengaluru in the failed set,
yet nothing is ever handed to persistence: the except branch of
scrape_all_cities continues without calling save_progress. -/
theorem C7_counterexample :
    (scrape_all_cities behRaised ["bengaluru"] emptyScrapeState).saves = []
    ∧ "bengaluru" ∈ (scrape_all_cities behRaised ["bengaluru"] emptyScrapeState).failed_cities := by
  decide

/-- C7 amended: save_progress is called exactly once per city whose
scrape_city_venues call returns normally, which covers successful cities
and cities failed through an exception caught inside the call; a city
whose call itself raises is marked failed but triggers no persistence. -/
theorem C7_amended (beh : String → CityBehavior) (cs : List String) :
    (scrape_all_cities beh cs emptyScrapeState).saves.length
      = (cs.filter fun c => !(beh c).isRaised).length := by
  rw [scrape_all_cities_saves_length]
  simp [emptyScrapeState]

/-- C2 counterexample: a city environment whose first navigation attempt
fails while the second would succeed.  The specified protocol (navigation
retried up to three times) would reach the listing, yet scrape_city_venues
marks the city failed with an empty result, because the code performs the
single page.goto at src/app.py:435 with no retry. -/
theorem C2_counterexample :
    (scrape_city_venues exNavRetry).failed = true
    ∧ (scrape_city_venues exNavRetry).records = []
    ∧ spec_navigation_succeeds exNavRetry.gotoFails = true := by
  decide

/-- C2 amended: navigation to the listing URL is attempted exactly once; if
that single attempt fails, the city is marked failed, the run returns an
empty result for the city with zero records and an empty interaction trace
(nothing of the listing is salvaged), and any later city in the list is still
processed, ending in the completed or the failed set. -/
theorem C2_amended (ce : CityEnv) (hnav : ce.gotoFails 0 = true)
    (beh : String → CityBehavior) (c1 c2 : String) (rest : List String) :
    (scrape_city_venues ce).failed = true
    ∧ (scrape_city_venues ce).records = []
    ∧ (scrape_city_venues ce).finalState.trace = []
    ∧ (c2 ∈ (scrape_all_cities beh (c1 :: c2 :: rest) emptyScrapeState).scraped_cities
       ∨ c2 ∈ (scrape_all_cities beh (c1 :: c2 :: rest) emptyScrapeState).failed_cities) := by
  refine ⟨by simp [scrape_city_venues, hnav], by simp [scrape_city_venues, hnav],
    by simp [scrape_city_venues, hnav], ?_⟩
  rw [scrape_all_cities_scraped, scrape_all_cities_failed]
  by_cases h : (beh c2).isRaised
  · right
    simp [emptyScrapeState, List.mem_filter, h]
  · left
    simp only [Bool.not_eq_true] at h
    simp [emptyScrapeState, List.mem_filter, h]

/-- C2 witness: the amended statement at the concrete failing-navigation
environment, with pune processed after mumbai. -/
theorem C2_witness :
    (scrape_city_venues exNavRetry).failed = true
    ∧ (scrape_city_venues exNavRetry).records = []
    ∧ (scrape_city_venues exNavRetry).finalState.trace = []
    ∧ ("pune" ∈ (scrape_all_cities behOkEmpty ["mumbai", "pune"] emptyScrapeState).scraped_cities
       ∨ "pune" ∈ (scrape_all_cities behOkEmpty ["mumbai", "pune"] emptyScrapeState).failed_cities) :=
  C2_amended exNavRetry rfl behOkEmpty "mumbai" "pune" []

/-! Supporting lemmas about the per-venue loop. -/

theorem rebind_records (env : ItemEnv) (st : LoopState) :
    (rebind env st).records = st.records := rfl

theorem rebind_processed (env : ItemEnv) (st : LoopState) :
    (rebind env st).processed = st.processed := rfl

theorem recoverStep_records (env : ItemEnv) (i retry : Nat) (st : LoopState) :
    (recoverStep env i retry st).records = st.records := by
  unfold recoverStep
  split_ifs <;> rfl

theorem recoverStep_processed (env : ItemEnv) (i retry : Nat) (st : LoopState) :
    (recoverStep env i retry st).processed = st.processed := by
  unfold recoverStep
  split_ifs <;> rfl

theorem attemptLoop_ok_eval (env : ItemEnv) (i h : Nat) (st : LoopState) (r : VRec)
    (hok : env.attempt i 0 = AttemptOutcome.ok r) :
    attemptLoop env i h 3 0 st =
      rebind env { st with trace := st.trace ++ [(i, h)], records := st.records ++ [r] } := by
  show attemptLoop env i h (2 + 1) 0 st = _
  rw [attemptLoop, hok]

theorem attemptLoop_processed (env : ItemEnv) (i h : Nat) :
    ∀ (fuel retry : Nat) (st : LoopState),
      (attemptLoop env i h fuel retry st).processed = st.processed := by
  intro fuel
  induction fuel with
  | zero => intro retry st; rfl
  | succ n ih =>
    intro retry st
    rw [attemptLoop]
    rcases env.attempt i retry with r | _ | r
    · rfl
    · rw [ih, recoverStep_processed]
    · rw [ih, recoverStep_processed]

theorem attemptLoop_records_le (env : ItemEnv) (i h : Nat) :
    ∀ (fuel retry : Nat) (st : LoopState),
      (attemptLoop env i h fuel retry st).records.length ≤ st.records.length + fuel := by
  intro fuel
  induction fuel with
  | zero => intro retry st; simp [attemptLoop]
  | succ n ih =>
    intro retry st
    rcases hat : env.attempt i retry with r | _ | r <;> rw [attemptLoop, hat] <;> dsimp only
    · rw [rebind_records]
      dsimp only
      simp only [List.length_append, List.length_cons, List.length_nil]
      omega
    · have h5 := ih (retry + 1)
        (recoverStep env i retry { st with trace := st.trace ++ [(i, h)] })
      rw [recoverStep_records] at h5
      dsimp only at h5
      omega
    · have h5 := ih (retry + 1)
        (recoverStep env i retry
          { st with trace := st.trace ++ [(i, h)], records := st.records ++ [r] })
      rw [recoverStep_records] at h5
      dsimp only at h5
      simp only [List.length_append, List.length_cons, List.length_nil] at h5
      omega

theorem attemptLoop_records_le_one (env : ItemEnv) (i h : Nat)
    (hnf : ∀ (k : Nat) (r : VRec), env.attempt i k ≠ AttemptOutcome.failAfter r) :
    ∀ (fuel retry : Nat) (st : LoopState),
      (attemptLoop env i h fuel retry st).records.length ≤ st.records.length + 1 := by
  intro fuel
  induction fuel with
  | zero => intro retry st; simp [attemptLoop]
  | succ n ih =>
    intro retry st
    rcases hat : env.attempt i retry with r | _ | r <;> rw [attemptLoop, hat] <;> dsimp only
    · rw [rebind_records]
      dsimp only
      simp only [List.length_append, List.length_cons, List.length_nil]
      omega
    · have h5 := ih (retry + 1)
        (recoverStep env i retry { st with trace := st.trace ++ [(i, h)] })
      rw [recoverStep_records] at h5
      dsimp only at h5
      omega
    · exact absurd hat (hnf retry r)

theorem itemLoop_records_le (env : ItemEnv) (total : Nat) :
    ∀ (rest : List Nat) (i : Nat) (st : LoopState),
      (itemLoop env total rest i st).records.length ≤
        st.records.length + 3 * (min total 50 - st.processed) := by
  intro rest
  induction rest with
  | nil => intro i st; simp [itemLoop]
  | cons h t ih =>
    intro i st
    rw [itemLoop]
    by_cases hbreak : st.processed ≥ min total 50
    · rw [if_pos hbreak]; omega
    · rw [if_neg hbreak]
      have h1 := ih (i + 1) (bumpProcessed (attemptLoop env i h 3 0 st))
      have h2 := attemptLoop_records_le env i h 3 0 st
      have h3 := attemptLoop_processed env i h 3 0 st
      simp only [bumpProcessed] at h1 ⊢
      rw [h3] at h1 ⊢
      omega

theorem itemLoop_records_le_cap (env : ItemEnv) (total : Nat)
    (hnf : ∀ (i k : Nat) (r : VRec), env.attempt i k ≠ AttemptOutcome.failAfter r) :
    ∀ (rest : List Nat) (i : Nat) (st : LoopState),
      (itemLoop env total rest i st).records.length ≤
        st.records.length + (min total 50 - st.processed) := by
  intro rest
  induction rest with
  | nil => intro i st; simp [itemLoop]
  | cons h t ih =>
    intro i st
    rw [itemLoop]
    by_cases hbreak : st.processed ≥ min total 50
    · rw [if_pos hbreak]; omega
    · rw [if_neg hbreak]
      have h1 := ih (i + 1) (bumpProcessed (attemptLoop env i h 3 0 st))
      have h2 := attemptLoop_records_le_one env i h (fun k r => hnf i k r) 3 0 st
      have h3 := attemptLoop_processed env i h 3 0 st
      simp only [bumpProcessed] at h1 ⊢
      rw [h3] at h1 ⊢
      omega

theorem itemLoop_allOk (env : ItemEnv) (f : Nat → VRec) (total : Nat)
    (hall : ∀ i : Nat, env.attempt i 0 = AttemptOutcome.ok (f i)) :
    ∀ (rest : List Nat) (i : Nat) (st : LoopState), st.processed = i →
      (itemLoop env total rest i st).records =
        st.records ++ (List.range' i (min (min total 50 - i) rest.length)).map f := by
  intro rest
  induction rest with
  | nil => intro i st _; simp [itemLoop]
  | cons h t ih =>
    intro i st hpi
    rw [itemLoop]
    by_cases hbreak : st.processed ≥ min total 50
    · rw [if_pos hbreak]
      have h0 : min total 50 - i = 0 := by omega
      simp [h0]
    · rw [if_neg hbreak]
      rw [attemptLoop_ok_eval env i h st (f i) (hall i)]
      rw [ih (i + 1) _ (by simp [bumpProcessed, rebind]; omega)]
      simp only [bumpProcessed, rebind]
      have harith : min (min total 50 - i) (t.length + 1) =
          min (min total 50 - (i + 1)) t.length + 1 := by omega
      simp only [List.length_cons, harith, List.range'_succ, List.map_cons]
      simp

/-- C5 amended: with a fixed listing of N item handles, the load count equal
to N, navigation succeeding and every extraction succeeding on its first
attempt, scrape_city_venues appends exactly min(N, 50) records, the record
at position j being the extraction of handle j: none duplicated, none
dropped, up to the per-city cap of 50 items. -/
theorem C5_amended (ce : CityEnv) (f : Nat → VRec)
    (hnav : ce.gotoFails 0 = false)
    (htot : ce.total = ce.initElems.length)
    (hall : ∀ i : Nat, ce.items.attempt i 0 = AttemptOutcome.ok (f i)) :
    (scrape_city_venues ce).records = (List.range (min ce.initElems.length 50)).map f
    ∧ (scrape_city_venues ce).records.length = min ce.initElems.length 50 := by
  have hmain : (scrape_city_venues ce).records
      = (List.range (min ce.initElems.length 50)).map f := by
    by_cases h0 : ce.total = 0
    · have hlen : ce.initElems.length = 0 := by omega
      have he : ce.initElems = [] := List.eq_nil_of_length_eq_zero hlen
      simp [scrape_city_venues, hnav, h0, he]
    · have hloop := itemLoop_allOk ce.items f ce.total hall ce.initElems 0
        { records := [], processed := 0, cur := ce.initElems, reIdx := 0, trace := [] } rfl
      simp only [scrape_city_venues, hnav, Bool.false_eq_true, if_false, h0, if_neg h0]
      rw [hloop]
      have harith : min (min ce.total 50 - 0) ce.initElems.length
          = min ce.initElems.length 50 := by omega
      rw [harith, List.range_eq_range']
      simp
  refine ⟨hmain, ?_⟩
  rw [hmain]
  simp

/-- C5 counterexample: a city with 51 deterministically extractable item
handles and zero induced failures yields 50 appended records, not 51: the
cap at src/app.py:453 stops the loop, so exactly N records are appended
only for N up to 50. -/
theorem C5_counterexample :
    exFiftyOne.initElems.length = 51
    ∧ (scrape_city_venues exFiftyOne).records.length = 50
    ∧ (50 : Nat) ≠ 51 := by
  decide

/-- C5 witness: the amended statement evaluated on a two-item city. -/
theorem C5_witness :
    (scrape_city_venues exTwo).records = (List.range (min exTwo.initElems.length 50)).map recNR
    ∧ (scrape_city_venues exTwo).records.length = min exTwo.initElems.length 50 :=
  C5_amended exTwo recNR rfl rfl (fun _ => rfl)

/-- C10 amended: when no attempt fails after its record was appended, each
city contributes at most 50 records (in general the retry loop may append
the same item record up to three times when the back-navigation after the
append keeps raising, so only the bound 3 times min(total, 50) holds
unconditionally); and the generic fallback enumeration returns at most the
first 50 candidate elements. -/
theorem C10_amended (ce : CityEnv) (divs : List Elem)
    (hnf : ∀ (i k : Nat) (r : VRec), ce.items.attempt i k ≠ AttemptOutcome.failAfter r) :
    (scrape_city_venues ce).records.length ≤ 50
    ∧ (get_venue_elements_generic divs).length ≤ 50 := by
  constructor
  · by_cases hg : ce.gotoFails 0 = true
    · simp [scrape_city_venues, hg]
    · simp only [Bool.not_eq_true] at hg
      by_cases h0 : ce.total = 0
      · simp [scrape_city_venues, hg, h0]
      · simp only [scrape_city_venues, hg, Bool.false_eq_true, if_false, h0, if_neg h0]
        have hcap := itemLoop_records_le_cap ce.items ce.total hnf ce.initElems 0
          { records := [], processed := 0, cur := ce.initElems, reIdx := 0, trace := [] }
        simp only [List.length_nil] at hcap
        omega
  · unfold get_venue_elements_generic
    rw [List.length_take]
    omega

/-- C10 counterexample: a 17-item city where every attempt appends its
record and then fails during back-navigation; every item gets three appends
(one per retry), so 51 records accumulate, refuting the at-most-50 bound on
appended records. -/
theorem C10_counterexample :
    (scrape_city_venues exDupAppend).records.length = 51
    ∧ ¬ (scrape_city_venues exDupAppend).records.length ≤ 50 := by
  decide

/-- C10 witness: the amended bound evaluated on a ten-item city with no
post-append failures and an empty div list for the generic fallback. -/
theorem C10_witness :
    (scrape_city_venues exTen).records.length ≤ 50
    ∧ (get_venue_elements_generic []).length ≤ 50 :=
  C10_amended exTen [] (fun _ _ _ h => AttemptOutcome.noConfusion h)

/-- C3: evaluation of the stale-handle bug.  In exStale the fresh
re-enumeration after each back-navigation returns the handles 7 and 8, yet
the second extraction attempt operates on handle 1, taken from the original
pre-navigation enumeration: the for loop at src/app.py:452 iterates the
list object captured by enumerate, and the reassignment of venue_elements
at src/app.py:491 (despite the comment there saying elements are re-got
because they might be stale) cannot affect that iterator.  In exStaleEmpty
the freshly re-resolved count is zero, yet index 1 is still processed
rather than skipped. -/
theorem C3_stale_handle_eval :
    (scrape_city_venues exStale).finalState.trace = [(0, 0), (1, 1)]
    ∧ (scrape_city_venues exStale).finalState.cur = [7, 8]
    ∧ (1 : Nat) ∉ ([7, 8] : List Nat)
    ∧ (scrape_city_venues exStaleEmpty).finalState.trace = [(0, 0), (1, 1)]
    ∧ exStaleEmpty.items.reEnum 0 = [] := by
  decide

/-! Supporting lemmas about the assembled venue record. -/

theorem resolveField_ne_empty (qs : List (Option (List Elem))) : resolveField qs ≠ "" := by
  rcases resolveField_cases qs with h | h
  · rw [h]; decide
  · exact h.1

theorem extract_modal_value_ne_empty (mt : String) (pg : ModalPage) :
    (extract_modal_field mt pg).1 ≠ "" := by
  rcases modalButtonScan_value mt pg.dialog pg.closeButtons pg.buttons with h | h
  · show (modalButtonScan mt pg.dialog pg.closeButtons pg.buttons).1 ≠ ""
    rw [h]; decide
  · exact h.1

theorem record_values_ne_empty (pg : DetailPage) (city ts : String)
    (hu : pg.url ≠ "") (hc : city ≠ "") (ht : ts ≠ "") :
    ∀ p ∈ inject_orchestrator_fields (extract_venue_data pg) city ts, p.2 ≠ "" := by
  intro p hp
  simp only [inject_orchestrator_fields, extract_venue_data, List.append_assoc,
    List.mem_append, List.mem_map, List.mem_cons, List.mem_singleton,
    List.not_mem_nil, or_false] at hp
  rcases hp with ⟨k, _, rfl⟩ | ⟨k, _, rfl⟩ | ⟨k, _, rfl⟩ | rfl | rfl | rfl
  · exact resolveField_ne_empty _
  · exact resolveField_ne_empty _
  · exact extract_modal_value_ne_empty _ _
  · exact hu
  · exact hc
  · exact ht

/-- C4 amended: the record appended for a venue (the extract_venue_data
output with the two orchestrator injections) carries exactly the sixteen
keys name, price, timing, address, rating, raters, about_venue,
available_sports, highlights, amenities, offer, facilities, venue_rules,
url, city, scraped_at, each exactly once, and every value is non-empty text
or the UNAVAILABLE sentinel; the detail-page address sits under the key url
(the specification calls this field source_url), and city and scraped_at
are injected by the caller rather than produced by extract_venue_data. -/
theorem C4_amended (pg : DetailPage) (city ts : String)
    (hu : pg.url ≠ "") (hc : city ≠ "") (ht : ts ≠ "") :
    (inject_orchestrator_fields (extract_venue_data pg) city ts).map Prod.fst = recordKeys
    ∧ recordKeys.Nodup
    ∧ ((inject_orchestrator_fields (extract_venue_data pg) city ts).all
        fun p => !(p.2 == "")) = true := by
  refine ⟨rfl, by decide, List.all_eq_true.mpr fun p hp => ?_⟩
  have hne := record_values_ne_empty pg city ts hu hc ht p hp
  simpa using hne

/-- C4 counterexample: at a concrete detail page, the record never contains
the key source_url listed by the specified schema; the address key it does
contain, url, is absent from the specified schema; and extract_venue_data
itself does not produce the city key (the caller injects it). -/
theorem C4_counterexample :
    "source_url" ∉
      (inject_orchestrator_fields (extract_venue_data exPageBare) "pune" "t").map Prod.fst
    ∧ "url" ∈
      (inject_orchestrator_fields (extract_venue_data exPageBare) "pune" "t").map Prod.fst
    ∧ "url" ∉ specSchemaKeys
    ∧ "city" ∉ (extract_venue_data exPageBare).map Prod.fst := by
  decide

/-- C4 witness: the amended statement at a concrete bare detail page. -/
theorem C4_witness :
    (inject_orchestrator_fields (extract_venue_data exPageBare) "pune"
        "2024-01-01T00:00:00").map Prod.fst = recordKeys
    ∧ recordKeys.Nodup
    ∧ ((inject_orchestrator_fields (extract_venue_data exPageBare) "pune"
        "2024-01-01T00:00:00").all fun p => !(p.2 == "")) = true :=
  C4_amended exPageBare "pune" "2024-01-01T00:00:00" (by decide) (by decide) (by decide)

/-- C8 amended: every field of the record produced by extract_venue_data is
the UNAVAILABLE sentinel or text that is stripped of leading and trailing
whitespace (a fixed point of stripping); internal whitespace runs are not
collapsed, and the url value is passed through verbatim. -/
theorem C8_amended (pg : DetailPage) (p : String × String)
    (hp : p ∈ extract_venue_data pg) :
    p.1 = "url" ∨ p.2 = NA ∨ stripChars p.2 = p.2 := by
  simp only [extract_venue_data, List.append_assoc, List.mem_append, List.mem_map,
    List.mem_cons, List.mem_singleton, List.not_mem_nil, or_false] at hp
  rcases hp with ⟨k, _, rfl⟩ | ⟨k, _, rfl⟩ | ⟨k, _, rfl⟩ | rfl
  · rcases resolveField_cases (pg.fieldQueries k) with h | h
    · exact Or.inr (Or.inl h)
    · exact Or.inr (Or.inr h.2)
  · rcases resolveField_cases (pg.fieldQueries k) with h | h
    · exact Or.inr (Or.inl h)
    · exact Or.inr (Or.inr h.2)
  · rcases modalButtonScan_value k (pg.modal k).dialog (pg.modal k).closeButtons
      (pg.modal k).buttons with h | h
    · exact Or.inr (Or.inl h)
    · exact Or.inr (Or.inr h.2)
  · exact Or.inl rfl

/-- C8 counterexample: an element whose raw text holds an internal double
space and a newline; the extracted name keeps them verbatim (only leading
and trailing whitespace would be stripped), while the specified
normalization would collapse them to single spaces, and the value is not
the sentinel either. -/
theorem C8_counterexample :
    List.lookup "name" (extract_venue_data exPageRaw) = some "Indoor  Arena\nMumbai"
    ∧ specNormalize "Indoor  Arena\nMumbai" = "Indoor Arena Mumbai"
    ∧ "Indoor  Arena\nMumbai" ≠ "Indoor Arena Mumbai"
    ∧ "Indoor  Arena\nMumbai" ≠ NA := by
  decide

/-- C8 witness: the amended statement at the concrete record entry for the
name field of a plain detail page. -/
theorem C8_witness :
    ("name", "Indoor Arena").1 = "url" ∨ ("name", "Indoor Arena").2 = NA
    ∨ stripChars ("name", "Indoor Arena").2 = ("name", "Indoor Arena").2 :=
  C8_amended exPagePlain ("name", "Indoor Arena") (by decide)
